import Mathlib

/-!
Shallow embedding of the job-classification module
(`scraper/classification.py`) of the genzjobs repository, together with
theorems settling the frozen claims about it.

Conventions of the embedding:
* Python `str` becomes Lean `String`; lower-casing (`str.lower()`) becomes
  `String.data.map Char.toLower` (inputs are ASCII).
* Python `Optional[int]` salary bounds become `Option Nat`.
* Python float arithmetic on confidences becomes exact `ℚ` arithmetic;
  Python `round(x, 2)` (round-half-to-even) becomes `pyRound2`.
* Python truthiness of optional ints (`not salary_min` is true for both
  `None` and `0`) is modelled by `pyTruthy`.
-/

unseal Rat.add Rat.mul Rat.inv Rat.sub Rat.ofScientific

-- ==================== Definitions ====================

/-- The `ExperienceLevel` enum of `classification.py` (declaration order
ENTRY, MID, SENIOR, EXECUTIVE matters for tie-breaking). -/
inductive ExperienceLevel where
  | ENTRY
  | MID
  | SENIOR
  | EXECUTIVE
deriving DecidableEq, Repr, Fintype

/-- Position of a level in the enum declaration order (the insertion
order of the `scores` dict in `classify_job`). -/
def levelIdx : ExperienceLevel → Nat
  | ExperienceLevel.ENTRY => 0
  | ExperienceLevel.MID => 1
  | ExperienceLevel.SENIOR => 2
  | ExperienceLevel.EXECUTIVE => 3

/-- The `{"min": X, "max": Y}` dict returned by `parse_years_required`. -/
structure YearsRange where
  min : Nat
  max : Nat
deriving DecidableEq, Repr

/-- The `ClassificationSignals` dataclass. -/
structure ClassificationSignals where
  title_match : Option String
  years_required : Option YearsRange
  salary_band : Option String
  description_signals : List String
deriving DecidableEq, Repr

/-- The `ClassificationResult` dataclass; `confidence` is exact rational. -/
structure ClassificationResult where
  experience_level : ExperienceLevel
  audience_tags : List String
  confidence : ℚ
  signals : ClassificationSignals
deriving DecidableEq, Repr

/-- The `JobInput` dataclass (field order as in the source). -/
structure JobInput where
  title : String
  description : String
  salary_min : Option Nat
  salary_max : Option Nat
  location : Option String
  company : Option String
deriving DecidableEq, Repr

/-- Truthiness of a Python `Optional[int]`: `None` and `0` are falsy. -/
def pyTruthy : Option Nat → Bool
  | none => false
  | some n => n != 0

/-- Python `round(100*q)/100` with round-half-to-even tie behaviour,
i.e. `round(q, 2)` on an exact rational value. -/
def pyRound2 (q : ℚ) : ℚ :=
  let x : ℚ := 100 * q
  let f : ℤ := ⌊x⌋
  let r : ℤ :=
    if x - f < 1/2 then f
    else if x - f > 1/2 then f + 1
    else if f % 2 = 0 then f else f + 1
  (r : ℚ) / 100

/-- Python substring test `needle in hay` on char lists. -/
def containsSub (hay needle : List Char) : Bool :=
  match hay with
  | [] => needle.isEmpty
  | _ :: t => needle.isPrefixOf hay || containsSub t needle

/-- The expression
`(salary_min + salary_max) / 2 if salary_min and salary_max else (salary_min or salary_max)`
shared verbatim by `salary_to_level` and `get_salary_band`
(classification.py lines 205 and 221).  `salary_min or salary_max`
evaluates to `salary_min` when it is truthy, else to `salary_max`. -/
def salaryPointEstimate (salary_min salary_max : Option Nat) : ℚ :=
  if pyTruthy salary_min && pyTruthy salary_max then
    ((salary_min.getD 0 : ℚ) + (salary_max.getD 0 : ℚ)) / 2
  else if pyTruthy salary_min then (salary_min.getD 0 : ℚ)
  else (salary_max.getD 0 : ℚ)

/-- The `salary_to_level` (classification.py lines 200-213).  Note the
Python guard `if not salary_min and not salary_max` and the point
estimate use integer truthiness, so a bound equal to `0` behaves like an
absent bound. -/
def salary_to_level (salary_min salary_max : Option Nat) : Option ExperienceLevel :=
  if !pyTruthy salary_min && !pyTruthy salary_max then none
  else
    if salaryPointEstimate salary_min salary_max < 60000 then some ExperienceLevel.ENTRY
    else if salaryPointEstimate salary_min salary_max < 100000 then some ExperienceLevel.MID
    else if salaryPointEstimate salary_min salary_max < 200000 then some ExperienceLevel.SENIOR
    else some ExperienceLevel.EXECUTIVE

/-- The `get_salary_band` (classification.py lines 216-229); same guard and
point-estimate computation as `salary_to_level`. -/
def get_salary_band (salary_min salary_max : Option Nat) : Option String :=
  if !pyTruthy salary_min && !pyTruthy salary_max then none
  else
    if salaryPointEstimate salary_min salary_max < 60000 then some ("<$60k (entry)")
    else if salaryPointEstimate salary_min salary_max < 100000 then some ("$60k-$100k (mid)")
    else if salaryPointEstimate salary_min salary_max < 200000 then some ("$100k-$200k (senior)")
    else some (">$200k (executive)")

/-- The band string that `get_salary_band` associates with each level of
`salary_to_level` (read off the two parallel if-chains). -/
def bandOfLevel : ExperienceLevel → String
  | ExperienceLevel.ENTRY => "<$60k (entry)"
  | ExperienceLevel.MID => "$60k-$100k (mid)"
  | ExperienceLevel.SENIOR => "$100k-$200k (senior)"
  | ExperienceLevel.EXECUTIVE => ">$200k (executive)"

/-- The if-chain `estimate < 60000 → ENTRY, < 100000 → MID, < 200000 →
SENIOR, else EXECUTIVE` on an exact point estimate. -/
def levelOfEstimate (estimate : ℚ) : ExperienceLevel :=
  if estimate < 60000 then ExperienceLevel.ENTRY
  else if estimate < 100000 then ExperienceLevel.MID
  else if estimate < 200000 then ExperienceLevel.SENIOR
  else ExperienceLevel.EXECUTIVE

/-- Stated after the words of claim C2 (NOT from the source, for
comparison with `salary_to_level`): when exactly one bound is *present*
the present bound is the point estimate, when both are present (any
non-negative integers, including 0) their mean is used, and only absence
of both bounds yields `none`. -/
def salary_to_level_claim (salary_min salary_max : Option Nat) : Option ExperienceLevel :=
  match salary_min, salary_max with
  | none, none => none
  | some a, none => some (levelOfEstimate (a : ℚ))
  | none, some b => some (levelOfEstimate (b : ℚ))
  | some a, some b => some (levelOfEstimate (((a : ℚ) + (b : ℚ)) / 2))

/-- Zero bounds behave like absent bounds under Python truthiness; this
normalization maps `some 0` to `none`. -/
def normalizeZero : Option Nat → Option Nat
  | some 0 => none
  | o => o

/-- A backtracking matcher anchored at the start of the input: the list
of all ways the pattern can match a prefix, in the priority order of
Python regex backtracking (greedy alternatives first).  Each result is
the list of captured group values together with the rest of the input. -/
def RMatcher : Type := List Char → List (List Nat × List Char)

/-- Empty pattern. -/
def rEmpty : RMatcher := fun cs => [([], cs)]

/-- Literal pattern (the needle is already lower-case, matching the
lower-cased text, which subsumes `re.IGNORECASE`). -/
def rLit (s : String) : RMatcher := fun cs =>
  if s.data.isPrefixOf cs then [([], cs.drop s.data.length)] else []

/-- Sequencing of patterns. -/
def rSeq (p q : RMatcher) : RMatcher := fun cs =>
  (p cs).flatMap (fun pr => (q pr.2).map (fun qr => (pr.1 ++ qr.1, qr.2)))

/-- Alternation `a|b` (left alternative preferred). -/
def rAlt (p q : RMatcher) : RMatcher := fun cs => p cs ++ q cs

/-- Greedy option `(?:a)?`. -/
def rOpt (p : RMatcher) : RMatcher := rAlt p rEmpty

/-- The `.` — any character except a newline (no `re.DOTALL`). -/
def rAnyChar : RMatcher := fun cs =>
  match cs with
  | [] => []
  | c :: t => if c = '\n' then [] else [([], t)]

/-- Python `\s` (ASCII whitespace classes). -/
def isReSpace (c : Char) : Bool :=
  c = ' ' || c = '\t' || c = '\n' || c = '\r' || c = '\x0b' || c = '\x0c'

/-- Length of the maximal leading run of whitespace. -/
def spaceRun : List Char → Nat
  | [] => 0
  | c :: t => if isReSpace c then spaceRun t + 1 else 0

/-- Greedy `\s*`: consume the longest whitespace run first, backtracking
one character at a time. -/
def rSpaces0 : RMatcher := fun cs =>
  let n := spaceRun cs
  (List.range (n + 1)).map (fun i => ([], cs.drop (n - i)))

/-- Greedy `\s+`: at least one whitespace character. -/
def rSpaces1 : RMatcher := fun cs =>
  let n := spaceRun cs
  (List.range n).map (fun i => ([], cs.drop (n - i)))

/-- The `(\d{1,2})` with its captured numeric value: greedily two digits,
backtracking to one. -/
def rDigit12 : RMatcher := fun cs =>
  match cs with
  | c :: d :: t =>
    if c.isDigit && d.isDigit then
      [([(c.toNat - 48) * 10 + (d.toNat - 48)], t), ([c.toNat - 48], d :: t)]
    else if c.isDigit then [([c.toNat - 48], d :: t)]
    else []
  | [c] => if c.isDigit then [([c.toNat - 48], [])] else []
  | [] => []

/-- The `re.search` semantics: try each start position left to right and
return the captures of the first (highest-priority) match found. -/
def reSearch (p : RMatcher) : List Char → Option (List Nat)
  | [] =>
    match p [] with
    | r :: _ => some r.1
    | [] => none
  | c :: t =>
    match p (c :: t) with
    | r :: _ => some r.1
    | [] => reSearch p t

/-- The `no experience (?:required|necessary|needed)` (classification.py line 139). -/
def patNoExperience : RMatcher :=
  rSeq (rLit ("no experience "))
    (rAlt (rLit ("required")) (rAlt (rLit ("necessary")) (rLit ("needed"))))

/-- The `entry.?level` (classification.py line 140). -/
def patEntryLevel : RMatcher :=
  rSeq (rLit ("entry")) (rSeq (rOpt rAnyChar) (rLit ("level")))

/-- The `years?\s*(?:of\s+)?(?:experience|exp)?` — the common optional tail
of the range / plus / minimum patterns. -/
def patYearsTail : RMatcher :=
  rSeq (rLit ("year"))
    (rSeq (rOpt (rLit ("s")))
      (rSeq rSpaces0
        (rSeq (rOpt (rSeq (rLit ("of")) rSpaces1))
          (rOpt (rAlt (rLit ("experience")) (rLit ("exp")))))))

/-- The `(\d{1,2})\s*(?:to|-)\s*(\d{1,2})\s*(?:\+)?\s*years?\s*(?:of\s+)?(?:experience|exp)?`
(classification.py lines 144-147). -/
def patRange : RMatcher :=
  rSeq rDigit12
    (rSeq rSpaces0
      (rSeq (rAlt (rLit ("to")) (rLit ("-")))
        (rSeq rSpaces0
          (rSeq rDigit12
            (rSeq rSpaces0
              (rSeq (rOpt (rLit ("+")))
                (rSeq rSpaces0 patYearsTail)))))))

/-- The `(\d{1,2})\+\s*years?\s*(?:of\s+)?(?:experience|exp)?`
(classification.py lines 155-158). -/
def patPlus : RMatcher :=
  rSeq rDigit12 (rSeq (rLit ("+")) (rSeq rSpaces0 patYearsTail))

/-- The `(?:minimum|at least|min\.?)\s*(\d{1,2})\s*years?\s*(?:of\s+)?(?:experience|exp)?`
(classification.py lines 165-167). -/
def patMinimum : RMatcher :=
  rSeq (rAlt (rLit ("minimum")) (rAlt (rLit ("at least")) (rSeq (rLit ("min")) (rOpt (rLit ("."))))))
    (rSeq rSpaces0 (rSeq rDigit12 (rSeq rSpaces0 patYearsTail)))

/-- The `(\d{1,2})\s*years?\s*(?:of\s+)?experience` (classification.py
lines 175-177) — here the word `experience` is mandatory. -/
def patSimple : RMatcher :=
  rSeq rDigit12
    (rSeq rSpaces0
      (rSeq (rLit ("year"))
        (rSeq (rOpt (rLit ("s")))
          (rSeq rSpaces0
            (rSeq (rOpt (rSeq (rLit ("of")) rSpaces1))
              (rLit ("experience")))))))

/-- The `is_reasonable_years` (classification.py lines 129-131). -/
def is_reasonable_years (years : Nat) : Bool :=
  decide (0 ≤ years) && decide (years ≤ 25)

/-- The `parse_years_required` (classification.py lines 134-184): the five
patterns are tried in cascade order; a pattern whose leftmost match has
unreasonable years falls through to the next pattern. -/
def parse_years_required (text : String) : Option YearsRange :=
  let lower_text := text.data.map Char.toLower
  if (reSearch patNoExperience lower_text).isSome
      || (reSearch patEntryLevel lower_text).isSome then
    some { min := 0, max := 0 }
  else
    let rangeRes : Option YearsRange :=
      match reSearch patRange lower_text with
      | some (mn :: mx :: _) =>
        if is_reasonable_years mn && is_reasonable_years mx then
          some { min := mn, max := mx }
        else none
      | _ => none
    match rangeRes with
    | some r => some r
    | none =>
      let plusRes : Option YearsRange :=
        match reSearch patPlus lower_text with
        | some (y :: _) =>
          if is_reasonable_years y then some { min := y, max := Nat.min (y + 5) 25 } else none
        | _ => none
      match plusRes with
      | some r => some r
      | none =>
        let minRes : Option YearsRange :=
          match reSearch patMinimum lower_text with
          | some (y :: _) =>
            if is_reasonable_years y then some { min := y, max := Nat.min (y + 3) 25 } else none
          | _ => none
        match minRes with
        | some r => some r
        | none =>
          match reSearch patSimple lower_text with
          | some (y :: _) =>
            if is_reasonable_years y then some { min := y, max := y } else none
          | _ => none

/-- The `years_to_level` (classification.py lines 187-197): average of the
two bounds against the 2 / 5 / 10 thresholds. -/
def years_to_level (years : YearsRange) : ExperienceLevel :=
  if ((years.min : ℚ) + (years.max : ℚ)) / 2 ≤ 2 then ExperienceLevel.ENTRY
  else if ((years.min : ℚ) + (years.max : ℚ)) / 2 ≤ 5 then ExperienceLevel.MID
  else if ((years.min : ℚ) + (years.max : ℚ)) / 2 ≤ 10 then ExperienceLevel.SENIOR
  else ExperienceLevel.EXECUTIVE

/-- The `TITLE_SIGNALS["entry"]` (classification.py lines 55-61). -/
def TITLE_SIGNALS_entry : List String :=
  ["intern", "internship", "entry level", "entry-level",
   "junior", "associate", "coordinator", "assistant",
   "trainee", "apprentice", "graduate", "early career",
   "new grad", "jr.", "jr ", "student", "fellowship",
   "residency", "resident"]

/-- The `TITLE_SIGNALS["mid"]` (classification.py lines 62-66). -/
def TITLE_SIGNALS_mid : List String :=
  ["specialist", "analyst", "manager", "lead",
   "supervisor", "experienced", "mid-level", "mid level",
   "team lead", "project manager"]

/-- The `TITLE_SIGNALS["senior"]` (classification.py lines 67-71). -/
def TITLE_SIGNALS_senior : List String :=
  ["senior", "sr.", "sr ", "director", "head of", "principal",
   "staff engineer", "staff developer", "architect",
   "senior manager", "engineering manager"]

/-- The `TITLE_SIGNALS["executive"]` (classification.py lines 72-77). -/
def TITLE_SIGNALS_executive : List String :=
  ["vice president", "chief executive", "chief technology", "chief financial",
   "chief operating", "chief marketing", "chief information",
   "executive director", "svp", "evp", "general manager",
   "founder", "co-founder", "managing director"]

/-- The `EXECUTIVE_WORD_BOUNDARY_SIGNALS` (classification.py lines 81-83). -/
def EXECUTIVE_WORD_BOUNDARY_SIGNALS : List String :=
  ["vp", "cto", "cfo", "ceo", "coo", "cmo", "cio", "president", "partner", "gm"]

/-- The `SENIOR_BLOCKLIST` (classification.py lines 86-90). -/
def SENIOR_BLOCKLIST : List String :=
  ["senior living", "senior care", "senior center", "senior community",
   "senior services", "senior citizen", "senior housing", "senior residence",
   "senior home", "senior wellness"]

/-- The `RETAIL_SERVICE_COMPANIES` (classification.py lines 93-99). -/
def RETAIL_SERVICE_COMPANIES : List String :=
  ["mcdonald", "burger king", "wendy", "taco bell", "kfc",
   "subway", "starbucks", "dunkin", "chipotle", "chick-fil-a",
   "walmart", "target", "costco", "cvs", "walgreens",
   "dollar general", "dollar tree", "family dollar",
   "pizza hut", "domino", "papa john"]

/-- The `DESCRIPTION_SIGNALS["entry"]` (classification.py lines 103-108). -/
def DESCRIPTION_SIGNALS_entry : List String :=
  ["no experience required", "no experience necessary", "no experience needed",
   "no prior experience", "entry level position", "entry-level position",
   "recent graduate", "fresh graduate", "will train", "training provided",
   "learn on the job"]

/-- The `DESCRIPTION_SIGNALS["mid"]` (classification.py lines 109-112). -/
def DESCRIPTION_SIGNALS_mid : List String :=
  ["manage a team", "lead a team", "team management",
   "2-3 years", "3-5 years", "proven track record"]

/-- The `DESCRIPTION_SIGNALS["senior"]` (classification.py lines 113-118). -/
def DESCRIPTION_SIGNALS_senior : List String :=
  ["report to the ceo", "report to the cto", "report to the cfo",
   "reports to ceo", "reports to cto", "report directly to",
   "extensive experience", "expert level", "deep expertise",
   "7+ years", "8+ years", "10+ years"]

/-- The `DESCRIPTION_SIGNALS["executive"]` (classification.py lines 119-123). -/
def DESCRIPTION_SIGNALS_executive : List String :=
  ["board of directors", "c-suite", "executive team",
   "p&l responsibility", "profit and loss", "company strategy",
   "organizational strategy", "15+ years", "20+ years"]

/-- The `is_senior_blocklisted` (classification.py lines 232-235). -/
def is_senior_blocklisted (title : String) : Bool :=
  SENIOR_BLOCKLIST.any (fun phrase => containsSub (title.data.map Char.toLower) phrase.data)

/-- The `is_retail_service_company` (classification.py lines 238-243);
`if not company` catches both `None` and the empty string. -/
def is_retail_service_company (company : Option String) : Bool :=
  match company with
  | none => false
  | some c =>
    if c.isEmpty then false
    else RETAIL_SERVICE_COMPANIES.any (fun name => containsSub (c.data.map Char.toLower) name.data)

/-- Python `\w` word characters (the signals involved are ASCII). -/
def isWordChar (c : Char) : Bool := c.isAlphanum || c = '_'

/-- The boundary after a match: end of string or a non-word character. -/
def wbAfterOk (rest : List Char) : Bool :=
  match rest with
  | [] => true
  | c :: _ => !isWordChar c

/-- Scan for an occurrence of `signal` preceded by start-of-string or a
non-word character and followed by end-of-string or a non-word
character.  Because every signal in `EXECUTIVE_WORD_BOUNDARY_SIGNALS`
consists of word characters only, this is exactly the semantics of
`re.search(rf"\b{signal}\b", text)`. -/
def wbSearch (signal : List Char) (prevIsWord : Bool) (hay : List Char) : Bool :=
  (!prevIsWord && signal.isPrefixOf hay && wbAfterOk (hay.drop signal.length)) ||
    match hay with
    | [] => false
    | c :: t => wbSearch signal (isWordChar c) t

/-- The `matches_with_word_boundary` (classification.py lines 246-249);
both arguments are already lower-case, subsuming `re.IGNORECASE`. -/
def matches_with_word_boundary (text : List Char) (signal : List Char) : Bool :=
  wbSearch signal false text

/-- The `analyze_title_signals` (classification.py lines 252-288): the
blocklist path first, then executive word-boundary signals, then the
executive / senior / entry / mid phrase lists, first match winning. -/
def analyze_title_signals (title : String) : Option ExperienceLevel × Option String :=
  let lower_title := title.data.map Char.toLower
  if is_senior_blocklisted title then
    match TITLE_SIGNALS_entry.find? (fun s => containsSub lower_title s.data) with
    | some signal => (some ExperienceLevel.ENTRY, some signal)
    | none => (some ExperienceLevel.MID, some ("senior (care context)"))
  else
    match EXECUTIVE_WORD_BOUNDARY_SIGNALS.find?
        (fun s => matches_with_word_boundary lower_title s.data) with
    | some signal => (some ExperienceLevel.EXECUTIVE, some signal)
    | none =>
      match TITLE_SIGNALS_executive.find? (fun s => containsSub lower_title s.data) with
      | some signal => (some ExperienceLevel.EXECUTIVE, some signal)
      | none =>
        match TITLE_SIGNALS_senior.find? (fun s => containsSub lower_title s.data) with
        | some signal => (some ExperienceLevel.SENIOR, some signal)
        | none =>
          match TITLE_SIGNALS_entry.find? (fun s => containsSub lower_title s.data) with
          | some signal => (some ExperienceLevel.ENTRY, some signal)
          | none =>
            match TITLE_SIGNALS_mid.find? (fun s => containsSub lower_title s.data) with
            | some signal => (some ExperienceLevel.MID, some signal)
            | none => (none, none)

/-- The `analyze_description_signals` (classification.py lines 291-321):
scans the category lists in order EXECUTIVE → SENIOR → ENTRY → MID; the
first category with at least one hit contributes *all* its matching
phrases (the `matches.append` loop), and lower-priority categories are
skipped once a level is set. -/
def analyze_description_signals (description : String) : Option ExperienceLevel × List String :=
  let lower_desc := description.data.map Char.toLower
  let ex := DESCRIPTION_SIGNALS_executive.filter (fun s => containsSub lower_desc s.data)
  if !ex.isEmpty then (some ExperienceLevel.EXECUTIVE, ex)
  else
    let sr := DESCRIPTION_SIGNALS_senior.filter (fun s => containsSub lower_desc s.data)
    if !sr.isEmpty then (some ExperienceLevel.SENIOR, sr)
    else
      let en := DESCRIPTION_SIGNALS_entry.filter (fun s => containsSub lower_desc s.data)
      if !en.isEmpty then (some ExperienceLevel.ENTRY, en)
      else
        let md := DESCRIPTION_SIGNALS_mid.filter (fun s => containsSub lower_desc s.data)
        if !md.isEmpty then (some ExperienceLevel.MID, md)
        else (none, [])

/-- The `level_to_audience_tags` (classification.py lines 324-332); the
mapping is total on the enum, so the `.get` default `['mid_career']` is
unreachable. -/
def level_to_audience_tags (level : ExperienceLevel) : List String :=
  match level with
  | ExperienceLevel.ENTRY => ["genz"]
  | ExperienceLevel.MID => ["mid_career"]
  | ExperienceLevel.SENIOR => ["senior"]
  | ExperienceLevel.EXECUTIVE => ["executive"]

/-- The insertion order of the `scores` dict in `classify_job`
(classification.py lines 350-355), which is also the iteration order of
the winning-level loop. -/
def levelsInOrder : List ExperienceLevel :=
  [ExperienceLevel.ENTRY, ExperienceLevel.MID, ExperienceLevel.SENIOR, ExperienceLevel.EXECUTIVE]

/-- The per-level score after the four weighted contributions
(classification.py lines 359-387), as a function of the four extractor
outputs: title level (+10), years level (+8), salary level (+5) and
description level (+3). -/
def scoreFun (tl yl sl dl : Option ExperienceLevel) (l : ExperienceLevel) : Nat :=
  (if tl = some l then 10 else 0) + (if yl = some l then 8 else 0) +
    (if sl = some l then 5 else 0) + (if dl = some l then 3 else 0)

/-- The `total_weight` accumulation (classification.py lines 357-387): each
extractor that fired contributes its full weight. -/
def totalWeightFun (tl yl sl dl : Option ExperienceLevel) : Nat :=
  (if tl.isSome then 10 else 0) + (if yl.isSome then 8 else 0) +
    (if sl.isSome then 5 else 0) + (if dl.isSome then 3 else 0)

/-- The winning-level loop (classification.py lines 389-396): running
maximum starting at `(MID, 0)`, strictly-greater comparison, iterating
in dict insertion order. -/
def winnerFoldFun (tl yl sl dl : Option ExperienceLevel) : ExperienceLevel × Nat :=
  levelsInOrder.foldl
    (fun acc l => if scoreFun tl yl sl dl l > acc.2 then (l, scoreFun tl yl sl dl l) else acc)
    (ExperienceLevel.MID, 0)

/-- The `signal_count = sum(1 for s in scores.values() if s > 0)`
(classification.py line 403): the number of *levels* with a positive
score. -/
def signalCountFun (tl yl sl dl : Option ExperienceLevel) : Nat :=
  (levelsInOrder.filter (fun l => 0 < scoreFun tl yl sl dl l)).length

/-- The confidence before rounding (classification.py lines 398-405):
0.3 when nothing fired, otherwise `max_score / total_weight`, times 0.9
when `signal_count == 1`. -/
def rawConfidenceFun (tl yl sl dl : Option ExperienceLevel) : ℚ :=
  if totalWeightFun tl yl sl dl = 0 then 3/10
  else
    if signalCountFun tl yl sl dl = 1 then
      (((winnerFoldFun tl yl sl dl).2 : ℚ) / (totalWeightFun tl yl sl dl : ℚ)) * (9/10)
    else ((winnerFoldFun tl yl sl dl).2 : ℚ) / (totalWeightFun tl yl sl dl : ℚ)

/-- Stable insertion (descending by score) used to model Python's stable
`sorted(..., key=lambda x: x[1], reverse=True)`: an element moves past
another only when that other has a strictly larger score, so equal
scores keep their original (insertion) order. -/
def insertDesc (x : ExperienceLevel × Nat) :
    List (ExperienceLevel × Nat) → List (ExperienceLevel × Nat)
  | [] => [x]
  | y :: rest => if y.2 > x.2 then y :: insertDesc x rest else x :: y :: rest

/-- Stable descending-by-score sort. -/
def sortDescBySnd : List (ExperienceLevel × Nat) → List (ExperienceLevel × Nat)
  | [] => []
  | x :: rest => insertDesc x (sortDescBySnd rest)

/-- The `sorted([(level, score) ... if score > 0], key=..., reverse=True)`
(classification.py lines 412-416). -/
def sortedLevelsFun (tl yl sl dl : Option ExperienceLevel) : List (ExperienceLevel × Nat) :=
  sortDescBySnd
    ((levelsInOrder.map (fun l => (l, scoreFun tl yl sl dl l))).filter (fun p => 0 < p.2))

/-- Deterministic stand-in for Python's `list(set(xs))` on small string
lists: duplicates removed, first occurrences kept.  (CPython's set
iteration order is unspecified; every claim about audience tags is
order-insensitive.) -/
def pySetList (xs : List String) : List String :=
  go [] xs
where
  /-- Accumulator-based duplicate removal. -/
  go (seen : List String) : List String → List String
    | [] => []
    | a :: rest => if a ∈ seen then go seen rest else a :: go (a :: seen) rest

/-- Audience tags including the ambiguity dual-tagging
(classification.py lines 407-422): start from the winner's tags; when
the unrounded confidence is below 0.5, some extractor fired, at least
two levels have positive score and the top two scores differ by at most
3, union in the second level's tags. -/
def audienceTagsFun (tl yl sl dl : Option ExperienceLevel) : List String :=
  let base := level_to_audience_tags (winnerFoldFun tl yl sl dl).1
  if rawConfidenceFun tl yl sl dl < 1/2 ∧ 0 < totalWeightFun tl yl sl dl then
    match sortedLevelsFun tl yl sl dl with
    | first :: second :: _ =>
      if ((first.2 : Int) - (second.2 : Int)) ≤ 3 then
        pySetList (base ++ level_to_audience_tags second.1)
      else base
    | _ => base
  else base

-- Per-job extractor outputs (classification.py lines 359-387).

/-- Output of the title extractor on a job. -/
def titleResult (j : JobInput) : Option ExperienceLevel × Option String :=
  analyze_title_signals j.title

/-- Output of the years extractor on a job. -/
def yearsParsed (j : JobInput) : Option YearsRange :=
  parse_years_required j.description

/-- The level the years extractor contributes (when it fired). -/
def yearsLevelOf (j : JobInput) : Option ExperienceLevel :=
  (yearsParsed j).map years_to_level

/-- The level the salary extractor contributes. -/
def salaryLevelOf (j : JobInput) : Option ExperienceLevel :=
  salary_to_level j.salary_min j.salary_max

/-- Output of the description extractor on a job. -/
def descResult (j : JobInput) : Option ExperienceLevel × List String :=
  analyze_description_signals j.description

/-- The level the description extractor contributes. -/
def descLevelOf (j : JobInput) : Option ExperienceLevel :=
  (descResult j).1

/-- Per-level score of a job. -/
def scoresOf (j : JobInput) (l : ExperienceLevel) : Nat :=
  scoreFun (titleResult j).1 (yearsLevelOf j) (salaryLevelOf j) (descLevelOf j) l

/-- The `total_weight` of a job. -/
def totalWeight (j : JobInput) : Nat :=
  totalWeightFun (titleResult j).1 (yearsLevelOf j) (salaryLevelOf j) (descLevelOf j)

/-- Winning level and max score of a job. -/
def winnerFold (j : JobInput) : ExperienceLevel × Nat :=
  winnerFoldFun (titleResult j).1 (yearsLevelOf j) (salaryLevelOf j) (descLevelOf j)

/-- The `winning_level` of a job. -/
def winningLevelOf (j : JobInput) : ExperienceLevel := (winnerFold j).1

/-- The `max_score` of a job. -/
def maxScoreOf (j : JobInput) : Nat := (winnerFold j).2

/-- The `signal_count` of a job. -/
def signalCountOf (j : JobInput) : Nat :=
  signalCountFun (titleResult j).1 (yearsLevelOf j) (salaryLevelOf j) (descLevelOf j)

/-- The `ClassificationSignals` record assembled by `classify_job`
(fields are set only when the corresponding extractor fired). -/
def signalsOf (j : JobInput) : ClassificationSignals :=
  { title_match := if (titleResult j).1.isSome then (titleResult j).2 else none
    years_required := yearsParsed j
    salary_band :=
      if (salaryLevelOf j).isSome then get_salary_band j.salary_min j.salary_max else none
    description_signals :=
      if (descLevelOf j).isSome ∧ ¬(descResult j).2.isEmpty then (descResult j).2 else [] }

/-- The `classify_job` (classification.py lines 337-429). -/
def classify_job (j : JobInput) : ClassificationResult :=
  { experience_level := winningLevelOf j
    audience_tags :=
      audienceTagsFun (titleResult j).1 (yearsLevelOf j) (salaryLevelOf j) (descLevelOf j)
    confidence :=
      pyRound2 (rawConfidenceFun (titleResult j).1 (yearsLevelOf j) (salaryLevelOf j) (descLevelOf j))
    signals := signalsOf j }

/-- The `classify_job_with_company` (classification.py lines 432-457). -/
def classify_job_with_company (j : JobInput) : ClassificationResult :=
  let base_result := classify_job j
  if (match j.company with | some c => !c.isEmpty | none => false)
      && is_retail_service_company j.company then
    let lower_title := j.title.data.map Char.toLower
    if containsSub lower_title ("manager".data)
        && !containsSub lower_title ("general manager".data) then
      if salary_to_level j.salary_min j.salary_max = none
          ∨ salary_to_level j.salary_min j.salary_max = some ExperienceLevel.ENTRY then
        { experience_level := ExperienceLevel.ENTRY
          audience_tags := ["genz"]
          confidence := max base_result.confidence (7/10)
          signals :=
            { title_match := base_result.signals.title_match
              years_required := base_result.signals.years_required
              salary_band := base_result.signals.salary_band
              description_signals :=
                base_result.signals.description_signals ++ ["retail/service manager context"] } }
      else base_result
    else base_result
  else base_result

/-- Stated after the words of claim C1 (NOT from the source): the number
of *extractors* that fired on a job. -/
def numExtractorsFired (j : JobInput) : Nat :=
  (if (titleResult j).1.isSome then 1 else 0) + (if (yearsParsed j).isSome then 1 else 0) +
    (if (salaryLevelOf j).isSome then 1 else 0) + (if (descLevelOf j).isSome then 1 else 0)

/-- Stated after the words of claim C1 (NOT from the source): confidence
as the claim describes it, with the 0.9 penalty applied iff exactly one
*extractor* fired. -/
def confidenceClaimC1 (j : JobInput) : ℚ :=
  pyRound2 (if numExtractorsFired j = 1 then
      ((maxScoreOf j : ℚ) / (totalWeight j : ℚ)) * (9/10)
    else (maxScoreOf j : ℚ) / (totalWeight j : ℚ))

/-- Counterexample input for C1: the title extractor ("intern") and the
salary extractor (30000/30000) both fire, and both contribute to ENTRY. -/
def jobC1 : JobInput :=
  { title := "intern", description := "", salary_min := some 30000, salary_max := some 30000,
    location := none, company := none }

/-- The all-empty job, on which no extractor fires. -/
def jobC8 : JobInput :=
  { title := "", description := "", salary_min := none, salary_max := none,
    location := none, company := none }

/-- Tie witness input for C4: years → MID (8) against salary ENTRY (5)
plus description ENTRY (3): ENTRY and MID both score 8. -/
def jobC4 : JobInput :=
  { title := "", description := "3 years of experience, will train", salary_min := some 30000,
    salary_max := none, location := none, company := none }

/-- The combined condition guarding the retail/service-manager override
in `classify_job_with_company` (classification.py lines 437-443). -/
def retailManagerOverride (j : JobInput) : Bool :=
  ((match j.company with | some c => !c.isEmpty | none => false)
      && is_retail_service_company j.company)
    && ((containsSub (j.title.data.map Char.toLower) ("manager".data)
      && !containsSub (j.title.data.map Char.toLower) ("general manager".data))
    && decide (salary_to_level j.salary_min j.salary_max = none
      ∨ salary_to_level j.salary_min j.salary_max = some ExperienceLevel.ENTRY))

/-- The overridden result built by `classify_job_with_company`
(classification.py lines 444-455). -/
def overrideResult (j : JobInput) : ClassificationResult :=
  { experience_level := ExperienceLevel.ENTRY
    audience_tags := ["genz"]
    confidence := max (classify_job j).confidence (7/10)
    signals :=
      { title_match := (classify_job j).signals.title_match
        years_required := (classify_job j).signals.years_required
        salary_band := (classify_job j).signals.salary_band
        description_signals :=
          (classify_job j).signals.description_signals ++ ["retail/service manager context"] } }

/-- The spec's own worked example for C5 (apostrophe dropped from the
company name; the match is the case-insensitive substring "mcdonald"). -/
def jobC5 : JobInput :=
  { title := "Store Manager", description := "", salary_min := some 35000,
    salary_max := some 40000, location := none, company := some ("McDonalds") }

-- ==================== Theorems ====================

/-- Helper: the two salary functions are pointwise the level-to-band
rename of each other. -/
theorem get_salary_band_eq_map (mn mx : Option Nat) :
    get_salary_band mn mx = Option.map bandOfLevel (salary_to_level mn mx) := by
  unfold get_salary_band salary_to_level
  split_ifs <;> rfl

/-- Helper: `some` pushed through the threshold if-chain. -/
theorem some_levelOfEstimate (e : ℚ) :
    (if e < 60000 then some ExperienceLevel.ENTRY
     else if e < 100000 then some ExperienceLevel.MID
     else if e < 200000 then some ExperienceLevel.SENIOR
     else some ExperienceLevel.EXECUTIVE) = some (levelOfEstimate e) := by
  unfold levelOfEstimate
  split_ifs <;> rfl

/-- Claim C2 counterexample: with `salary_min = 0` and
`salary_max = 150000` both bounds are present, so the claim predicts the
mean 75000 and level MID, but the code treats the zero bound as absent
and classifies by 150000 alone, giving SENIOR. -/
theorem salary_claim_C2_counterexample :
    salary_to_level (some 0) (some 150000) = some ExperienceLevel.SENIOR ∧
    salary_to_level_claim (some 0) (some 150000) = some ExperienceLevel.MID ∧
    salary_to_level (some 0) (some 150000) ≠ salary_to_level_claim (some 0) (some 150000) := by
  refine ⟨by decide, by decide, by decide⟩

/-- Claim C2 (amended): `salary_to_level` behaves exactly as the claim
describes *after* bounds equal to 0 are treated as absent (Python
truthiness): with both effective bounds, the mean; with exactly one, that
bound; with none, `none`; thresholds 60000 / 100000 / 200000.  The band
function follows the same partition. -/
theorem salary_level_C2_amended (mn mx : Option Nat) :
    salary_to_level mn mx = salary_to_level_claim (normalizeZero mn) (normalizeZero mx) ∧
    get_salary_band mn mx =
      Option.map bandOfLevel (salary_to_level_claim (normalizeZero mn) (normalizeZero mx)) := by
  have h : salary_to_level mn mx = salary_to_level_claim (normalizeZero mn) (normalizeZero mx) := by
    rcases mn with _ | n <;> rcases mx with _ | m
    · rfl
    · rcases m with _ | m
      · rfl
      · simp [salary_to_level, salary_to_level_claim, normalizeZero, pyTruthy,
          salaryPointEstimate, some_levelOfEstimate]
    · rcases n with _ | n
      · rfl
      · simp [salary_to_level, salary_to_level_claim, normalizeZero, pyTruthy,
          salaryPointEstimate, some_levelOfEstimate]
    · rcases n with _ | n <;> rcases m with _ | m
      · rfl
      · simp [salary_to_level, salary_to_level_claim, normalizeZero, pyTruthy,
          salaryPointEstimate, some_levelOfEstimate]
      · simp [salary_to_level, salary_to_level_claim, normalizeZero, pyTruthy,
          salaryPointEstimate, some_levelOfEstimate]
      · simp [salary_to_level, salary_to_level_claim, normalizeZero, pyTruthy,
          salaryPointEstimate, some_levelOfEstimate]
  exact ⟨h, by rw [get_salary_band_eq_map, h]⟩

/-- Claim C7: `salary_to_level` and `get_salary_band` partition the
salary axis identically (the band is the 1:1 rename of the level and
both are `none` on exactly the same inputs), and at the boundaries a
point estimate of 59999 is ENTRY with band string str1 below, 60000 and
99999 are MID, and 100000 is SENIOR. -/
theorem salary_band_partition_C7 :
    (∀ mn mx : Option Nat,
      get_salary_band mn mx = Option.map bandOfLevel (salary_to_level mn mx) ∧
      (salary_to_level mn mx = none ↔ get_salary_band mn mx = none)) ∧
    salary_to_level (some 59999) none = some ExperienceLevel.ENTRY ∧
    get_salary_band (some 59999) none = some ("<$60k (entry)") ∧
    salary_to_level (some 60000) none = some ExperienceLevel.MID ∧
    salary_to_level (some 99999) none = some ExperienceLevel.MID ∧
    salary_to_level (some 100000) none = some ExperienceLevel.SENIOR := by
  refine ⟨fun mn mx => ⟨get_salary_band_eq_map mn mx, ?_⟩, by decide, by decide, by decide,
    by decide, by decide⟩
  rw [get_salary_band_eq_map]
  rcases salary_to_level mn mx with _ | l
  · simp
  · simp

/-- Claim C10: a salary bound equal to 0 is treated exactly as absent:
if every provided bound is 0 both salary functions return `none`, and
with `salary_min = 0` and a positive `salary_max` the positive bound
alone is used (same result as if the zero bound were absent). -/
theorem salary_zero_bound_C10 (mx : Nat) (h : 0 < mx) :
    salary_to_level (some 0) (some mx) = salary_to_level none (some mx) ∧
    get_salary_band (some 0) (some mx) = get_salary_band none (some mx) ∧
    salary_to_level (some 0) none = none ∧
    get_salary_band (some 0) none = none ∧
    salary_to_level (some 0) (some 0) = none ∧
    get_salary_band (some 0) (some 0) = none ∧
    salary_to_level none (some 0) = none ∧
    get_salary_band none (some 0) = none := by
  have hm : mx ≠ 0 := by omega
  refine ⟨?_, ?_, by decide, by decide, by decide, by decide, by decide, by decide⟩
  · simp [salary_to_level, pyTruthy, salaryPointEstimate, hm]
  · simp [get_salary_band, pyTruthy, salaryPointEstimate, hm]

/-- Witness for C10 at `salary_max = 150000`. -/
theorem salary_zero_bound_C10_witness :
    (0 < 150000 ∧ salary_to_level (some 0) (some 150000) = salary_to_level none (some 150000)) ∧
    salary_to_level (some 0) none = none ∧ salary_to_level (some 0) (some 0) = none :=
  ⟨⟨by decide, (salary_zero_bound_C10 150000 (by decide)).1⟩,
    (salary_zero_bound_C10 150000 (by decide)).2.2.1,
    (salary_zero_bound_C10 150000 (by decide)).2.2.2.2.1⟩

/-- Claim C9: the documented evaluations of `parse_years_required`, plus
cascade-priority checks: the no-experience / entry-level patterns beat
the `X+` pattern, the range pattern beats the minimum pattern, and the
minimum pattern beats the plain `X years` pattern. -/
theorem parse_years_required_C9 :
    parse_years_required ("5+ years of experience") = some { min := 5, max := 10 } ∧
    parse_years_required ("no experience required") = some { min := 0, max := 0 } ∧
    parse_years_required ("") = none ∧
    parse_years_required ("entry level, 5+ years of experience") = some { min := 0, max := 0 } ∧
    parse_years_required ("3 to 5 years of experience, minimum 9 years") = some { min := 3, max := 5 } ∧
    parse_years_required ("minimum 4 years, 6 years of experience") = some { min := 4, max := 7 } := by
  refine ⟨by decide, by decide, by decide, by decide, by decide, by decide⟩

/-- Claim C6: on any senior-care-blocklisted title, the title extractor
never reports SENIOR: it reports ENTRY with the first matching
ENTRY-category phrase when one occurs in the title, and MID with the
literal marker string otherwise. -/
theorem title_blocklist_C6 (title : String) (h : is_senior_blocklisted title = true) :
    (analyze_title_signals title).1 ≠ some ExperienceLevel.SENIOR ∧
    analyze_title_signals title =
      (match TITLE_SIGNALS_entry.find?
          (fun s => containsSub (title.data.map Char.toLower) s.data) with
       | some signal => (some ExperienceLevel.ENTRY, some signal)
       | none => (some ExperienceLevel.MID, some ("senior (care context)"))) := by
  unfold analyze_title_signals
  rw [if_pos h]
  constructor
  · rcases hf : TITLE_SIGNALS_entry.find?
        (fun s => containsSub (title.data.map Char.toLower) s.data) with _ | s <;>
      simp [hf]
  · rfl

/-- Witness for C6: "Senior Living Community Coordinator" takes the
blocklist path and yields ENTRY via the phrase "coordinator". -/
theorem title_blocklist_C6_witness :
    is_senior_blocklisted ("Senior Living Community Coordinator") = true ∧
    analyze_title_signals ("Senior Living Community Coordinator") =
      (some ExperienceLevel.ENTRY, some ("coordinator")) := by
  refine ⟨by decide, ?_⟩
  exact ((title_blocklist_C6 ("Senior Living Community Coordinator") (by decide)).2).trans (by decide)

/-- Claim C1 counterexample: on `jobC1` two extractors fire, so the
claim says no 0.9 penalty and confidence 15/15 = 1.00; but the code's
`signal_count` counts score *buckets*, sees a single positive bucket,
and applies the penalty, returning 0.9. -/
theorem confidence_claim_C1_counterexample :
    numExtractorsFired jobC1 = 2 ∧ 0 < totalWeight jobC1 ∧
    confidenceClaimC1 jobC1 = 1 ∧ (classify_job jobC1).confidence = 9/10 ∧
    (classify_job jobC1).confidence ≠ confidenceClaimC1 jobC1 := by
  refine ⟨by decide, by decide, by decide, by decide, by decide⟩

/-- Claim C1 (amended): when at least one extractor fires, the returned
confidence is `max_score / total_weight`, multiplied by 0.9 if and only
if exactly one *score bucket* is positive (`signal_count == 1` counts
levels with positive score, not extractors), rounded to 2 decimals. -/
theorem confidence_formula_C1 (j : JobInput) (h : 0 < totalWeight j) :
    (classify_job j).confidence =
      pyRound2 (if signalCountOf j = 1 then
          ((maxScoreOf j : ℚ) / (totalWeight j : ℚ)) * (9/10)
        else (maxScoreOf j : ℚ) / (totalWeight j : ℚ)) := by
  have hne : totalWeightFun (titleResult j).1 (yearsLevelOf j) (salaryLevelOf j)
      (descLevelOf j) ≠ 0 := by
    unfold totalWeight at h
    omega
  show pyRound2 (rawConfidenceFun (titleResult j).1 (yearsLevelOf j) (salaryLevelOf j)
      (descLevelOf j)) = _
  unfold rawConfidenceFun
  rw [if_neg hne]
  rfl

/-- Witness for the amended C1 at `jobC1` (one positive bucket, so the
0.9 penalty applies there). -/
theorem confidence_formula_C1_witness :
    0 < totalWeight jobC1 ∧ signalCountOf jobC1 = 1 ∧
    (classify_job jobC1).confidence =
      pyRound2 (if signalCountOf jobC1 = 1 then
          ((maxScoreOf jobC1 : ℚ) / (totalWeight jobC1 : ℚ)) * (9/10)
        else (maxScoreOf jobC1 : ℚ) / (totalWeight jobC1 : ℚ)) :=
  ⟨by decide, by decide, confidence_formula_C1 jobC1 (by decide)⟩

/-- Claim C8: when no extractor fires, the result is exactly
MID / ["mid_career"] / confidence 0.3, with no dual-tagging. -/
theorem default_mid_C8 (j : JobInput)
    (h1 : (analyze_title_signals j.title).1 = none)
    (h2 : parse_years_required j.description = none)
    (h3 : salary_to_level j.salary_min j.salary_max = none)
    (h4 : (analyze_description_signals j.description).1 = none) :
    (classify_job j).experience_level = ExperienceLevel.MID ∧
    (classify_job j).audience_tags = ["mid_career"] ∧
    (classify_job j).confidence = 3/10 := by
  have ht : (titleResult j).1 = none := h1
  have hy : yearsLevelOf j = none := by
    unfold yearsLevelOf yearsParsed
    rw [h2]
    rfl
  have hs : salaryLevelOf j = none := h3
  have hd : descLevelOf j = none := h4
  refine ⟨?_, ?_, ?_⟩
  · show (winnerFold j).1 = ExperienceLevel.MID
    unfold winnerFold
    rw [ht, hy, hs, hd]
    decide
  · show audienceTagsFun (titleResult j).1 (yearsLevelOf j) (salaryLevelOf j) (descLevelOf j)
        = ["mid_career"]
    rw [ht, hy, hs, hd]
    decide
  · show pyRound2 (rawConfidenceFun (titleResult j).1 (yearsLevelOf j) (salaryLevelOf j)
        (descLevelOf j)) = 3/10
    rw [ht, hy, hs, hd]
    decide

/-- Witness for C8: the all-empty job. -/
theorem default_mid_C8_witness :
    (classify_job jobC8).experience_level = ExperienceLevel.MID ∧
    (classify_job jobC8).audience_tags = ["mid_career"] ∧
    (classify_job jobC8).confidence = 3/10 :=
  default_mid_C8 jobC8 (by decide) (by decide) (by decide) (by decide)

/-- Finite check over all 5^4 combinations of extractor outputs: when
the running maximum ends positive, the winning level attains the maximal
score and is the earliest (in enum order) level attaining it. -/
theorem winnerFoldChar :
    ∀ tl yl sl dl : Option ExperienceLevel,
      0 < (winnerFoldFun tl yl sl dl).2 →
        (scoreFun tl yl sl dl (winnerFoldFun tl yl sl dl).1 = (winnerFoldFun tl yl sl dl).2 ∧
          (∀ l, scoreFun tl yl sl dl l ≤ (winnerFoldFun tl yl sl dl).2) ∧
          ∀ l, scoreFun tl yl sl dl l = (winnerFoldFun tl yl sl dl).2 →
            levelIdx (winnerFoldFun tl yl sl dl).1 ≤ levelIdx l) := by
  decide

/-- Claim C4: the winning level is the argmax of the four per-level
scores, and on any exact tie of (nonzero) maximal scores the level
earliest in enumeration order ENTRY, MID, SENIOR, EXECUTIVE wins. -/
theorem tie_break_C4 (j : JobInput) (h : 0 < maxScoreOf j) :
    scoresOf j (winningLevelOf j) = maxScoreOf j ∧
    (∀ l, scoresOf j l ≤ maxScoreOf j) ∧
    ∀ l, scoresOf j l = maxScoreOf j → levelIdx (winningLevelOf j) ≤ levelIdx l :=
  winnerFoldChar (titleResult j).1 (yearsLevelOf j) (salaryLevelOf j) (descLevelOf j) h

/-- Witness for C4: on `jobC4` ENTRY and MID tie at the nonzero maximal
score 8 and the lower-enumeration-order level ENTRY is returned. -/
theorem tie_break_C4_witness :
    0 < maxScoreOf jobC4 ∧
    scoresOf jobC4 ExperienceLevel.ENTRY = 8 ∧ scoresOf jobC4 ExperienceLevel.MID = 8 ∧
    winningLevelOf jobC4 = ExperienceLevel.ENTRY ∧
    scoresOf jobC4 (winningLevelOf jobC4) = maxScoreOf jobC4 :=
  ⟨by decide, by decide, by decide, by decide, (tie_break_C4 jobC4 (by decide)).1⟩

/-- Finite check over all 5^4 combinations of extractor outputs: the
audience tag list is non-empty, contains the winner's mapped tag, and
has length 1 or 2. -/
theorem audienceTagsChar :
    ∀ tl yl sl dl : Option ExperienceLevel,
      audienceTagsFun tl yl sl dl ≠ [] ∧
      (∀ t ∈ level_to_audience_tags (winnerFoldFun tl yl sl dl).1,
        t ∈ audienceTagsFun tl yl sl dl) ∧
      ((audienceTagsFun tl yl sl dl).length = 1 ∨ (audienceTagsFun tl yl sl dl).length = 2) := by
  decide

/-- Helper: `classify_job_with_company` returns the override exactly
when `retailManagerOverride` holds, and the base result otherwise. -/
theorem with_company_spec (j : JobInput) :
    (retailManagerOverride j = true → classify_job_with_company j = overrideResult j) ∧
    (retailManagerOverride j = false → classify_job_with_company j = classify_job j) := by
  unfold retailManagerOverride classify_job_with_company overrideResult
  by_cases hA : ((match j.company with | some c => !c.isEmpty | none => false)
      && is_retail_service_company j.company) = true
  · by_cases hS : salary_to_level j.salary_min j.salary_max = none
        ∨ salary_to_level j.salary_min j.salary_max = some ExperienceLevel.ENTRY
    · by_cases hB : (containsSub (j.title.data.map Char.toLower) ("manager".data)
          && !containsSub (j.title.data.map Char.toLower) ("general manager".data)) = true
      · simp [hA, hB, hS]
      · simp [hA, hB, hS]
    · by_cases hB : (containsSub (j.title.data.map Char.toLower) ("manager".data)
          && !containsSub (j.title.data.map Char.toLower) ("general manager".data)) = true
      · simp [hA, hB, hS]
      · simp [hA, hB, hS]
  · simp [hA]

/-- Claim C3: for every job, both `classify_job` and
`classify_job_with_company` return a non-empty audience tag list that
contains the tag mapped 1:1 from the returned experience level and has
length 1 or 2 (at most one extra tag from dual-tagging). -/
theorem audience_tags_invariant_C3 (j : JobInput) :
    ((classify_job j).audience_tags ≠ [] ∧
      (∀ t ∈ level_to_audience_tags (classify_job j).experience_level,
        t ∈ (classify_job j).audience_tags) ∧
      ((classify_job j).audience_tags.length = 1 ∨ (classify_job j).audience_tags.length = 2)) ∧
    ((classify_job_with_company j).audience_tags ≠ [] ∧
      (∀ t ∈ level_to_audience_tags (classify_job_with_company j).experience_level,
        t ∈ (classify_job_with_company j).audience_tags) ∧
      ((classify_job_with_company j).audience_tags.length = 1 ∨
        (classify_job_with_company j).audience_tags.length = 2)) := by
  have hbase := audienceTagsChar (titleResult j).1 (yearsLevelOf j) (salaryLevelOf j)
    (descLevelOf j)
  refine ⟨hbase, ?_⟩
  rcases Bool.eq_false_or_eq_true (retailManagerOverride j) with h | h
  · rw [(with_company_spec j).1 h]
    refine ⟨by simp [overrideResult], ?_, by simp [overrideResult]⟩
    intro t ht
    simp only [overrideResult] at ht ⊢
    simpa [level_to_audience_tags] using ht
  · rw [(with_company_spec j).2 h]
    exact hbase

/-- Claim C5: when the company is on the retail/service list, the title
contains "manager" but not "general manager", and the salary level is
absent or ENTRY, `classify_job_with_company` overrides the whole result
to ENTRY / ["genz"] with confidence `max(base, 0.7)` and the diagnostic
string appended to the base description signals (other signal fields
unchanged); in every other case it returns the base `classify_job`
result unchanged. -/
theorem retail_override_C5 (j : JobInput) :
    (retailManagerOverride j = true →
      classify_job_with_company j =
        { experience_level := ExperienceLevel.ENTRY
          audience_tags := ["genz"]
          confidence := max (classify_job j).confidence (7/10)
          signals :=
            { title_match := (classify_job j).signals.title_match
              years_required := (classify_job j).signals.years_required
              salary_band := (classify_job j).signals.salary_band
              description_signals :=
                (classify_job j).signals.description_signals
                  ++ ["retail/service manager context"] } }) ∧
    (retailManagerOverride j = false → classify_job_with_company j = classify_job j) :=
  with_company_spec j

/-- Witness for C5: the Store Manager example is overridden to
ENTRY / ["genz"], its confidence is max(0.67, 0.7) = 0.7, and the
diagnostic string is appended. -/
theorem retail_override_C5_witness :
    retailManagerOverride jobC5 = true ∧
    classify_job_with_company jobC5 =
      { experience_level := ExperienceLevel.ENTRY
        audience_tags := ["genz"]
        confidence := max (classify_job jobC5).confidence (7/10)
        signals :=
          { title_match := (classify_job jobC5).signals.title_match
            years_required := (classify_job jobC5).signals.years_required
            salary_band := (classify_job jobC5).signals.salary_band
            description_signals :=
              (classify_job jobC5).signals.description_signals
                ++ ["retail/service manager context"] } } ∧
    (classify_job_with_company jobC5).confidence = 7/10 ∧
    ("retail/service manager context")
      ∈ (classify_job_with_company jobC5).signals.description_signals :=
  ⟨by decide, (retail_override_C5 jobC5).1 (by decide), by decide, by decide⟩
/-- Witness for C3 at the all-empty job: the tag list is non-empty and
contains the tag mapped from the returned level MID. -/
theorem audience_tags_invariant_C3_witness :
    (classify_job jobC8).audience_tags ≠ [] ∧
    ("mid_career") ∈ (classify_job jobC8).audience_tags :=
  ⟨(audience_tags_invariant_C3 jobC8).1.1,
    (audience_tags_invariant_C3 jobC8).1.2.1 ("mid_career") (by decide)⟩
